import Mathlib

/-!
# Verification of the fintrack Bend client core

A shallow embedding of the session lifecycle, transport error
classification, transaction pagination, and authentication flows of the
`quickkly/fintrack` repository (package `internal/blend` and the `bend
login` command), with theorems settling the specified properties.

Conventions of the embedding:
* Go `time.Time` instants and `time.Duration` values are modelled as `Int`
  nanosecond counts; `t.After(u)` is `t > u`, `t.Add(d)` is `t + d`.
* Go byte strings are modelled as `List Char` together with the UTF-8 byte
  width of each character (`Char.utf8Size`), so that the byte-indexed loops
  of the source can be mirrored exactly.
* Fallible Go code returns `Option`/`Except`; a Go `panic` is `none`.
* The HTTP layer is modelled by an explicit `ExchangeResult` value
  describing what one exchange yields (transport failure, or a status
  code, optional marble cookie and optionally decoded envelope); the
  functions under proof are the deterministic Go code around it.
-/

/-- Five minutes in nanoseconds: the validity buffer used by
`IsSessionValid` (`5 * time.Minute`). -/
def fiveMinutes : Int := 300000000000

/-- `Session` from `internal/blend/models.go`: the authenticated identity
held by the client.  `ExpiresAt` is an instant in nanoseconds. -/
structure Session where
  accessToken : String
  refreshToken : String
  expiresAt : Int
  tokenType : String
  marbleCookie : String
  deviceHash : String
  deriving DecidableEq, Repr

/-- `SessionManager.IsSessionValid` from the session store: a nil session
or one with an empty access token is invalid; otherwise the session is
invalid exactly when `time.Now().Add(5 * time.Minute).After(session.ExpiresAt)`,
i.e. when `now + 5m > expiresAt`. -/
def IsSessionValid (session : Option Session) (now : Int) : Bool :=
  match session with
  | none => false
  | some s =>
    if s.accessToken = "" then false
    else if now + fiveMinutes > s.expiresAt then false
    else true

/-!
## Session store (`SaveSession` / `LoadSession` / `GetSessionInfo`)

The on-disk state is modelled as what the session file can hold: absent,
unreadable, readable-but-not-JSON, or a JSON value.  `encoding/json` on
the `Session` struct is modelled by an explicit JSON value type in which
an RFC3339Nano timestamp string is represented by the instant it denotes
(Go's `time.Time` marshals to such a string and parses it back).
-/

/-- A JSON value, to the extent the session file uses JSON. -/
inductive Json where
  | str (s : String)
  | time (t : Int)
  | obj (fields : List (String × Json))

/-- Extract a JSON string field. -/
def asString : Option Json → Option String
  | some (Json.str s) => some s
  | _ => none

/-- Extract a JSON timestamp field. -/
def asTime : Option Json → Option Int
  | some (Json.time t) => some t
  | _ => none

/-- `json.Marshal` on the `Session` struct of `models.go`: one object with
the six tagged fields. -/
def encodeSession (s : Session) : Json :=
  Json.obj
    [("access_token", Json.str s.accessToken),
     ("refresh_token", Json.str s.refreshToken),
     ("expires_at", Json.time s.expiresAt),
     ("token_type", Json.str s.tokenType),
     ("marble_cookie", Json.str s.marbleCookie),
     ("device_hash", Json.str s.deviceHash)]

/-- `json.Unmarshal` into a `Session`: field lookup by tag name. -/
def decodeSession (j : Json) : Option Session :=
  match j with
  | Json.obj fields =>
    match asString (fields.lookup "access_token"),
          asString (fields.lookup "refresh_token"),
          asTime (fields.lookup "expires_at"),
          asString (fields.lookup "token_type"),
          asString (fields.lookup "marble_cookie"),
          asString (fields.lookup "device_hash") with
    | some a, some r, some e, some t, some m, some d =>
      some { accessToken := a, refreshToken := r, expiresAt := e,
             tokenType := t, marbleCookie := m, deviceHash := d }
    | _, _, _, _, _, _ => none
  | _ => none

/-- The session file's possible states. -/
inductive DiskState where
  | absent
  | unreadable
  | invalidJson
  | contents (j : Json)

/-- Failure cases of `LoadSession`. -/
inductive LoadError where
  | notFound
  | readFailed
  | decodeFailed
  deriving DecidableEq, Repr

/-- `SessionManager.SaveSession`, successful-write path: the file now holds
the serialized session (directory creation and write errors are
environment failures outside the store's own logic). -/
def SaveSession (s : Session) : DiskState :=
  DiskState.contents (encodeSession s)

/-- `SessionManager.LoadSession`: stat failure, read failure, or
unmarshal failure each return an error; otherwise the decoded session. -/
def LoadSession (disk : DiskState) : Except LoadError Session :=
  match disk with
  | DiskState.absent => Except.error LoadError.notFound
  | DiskState.unreadable => Except.error LoadError.readFailed
  | DiskState.invalidJson => Except.error LoadError.decodeFailed
  | DiskState.contents j =>
    match decodeSession j with
    | none => Except.error LoadError.decodeFailed
    | some s => Except.ok s

/-- `SessionInfo` from the session store.  Go's zero `time.Duration` for a
never-assigned `TimeRemaining` is modelled as `none`. -/
structure SessionInfo where
  exists_ : Bool
  valid : Bool
  expiresAt : Int
  timeRemaining : Option Int
  hasRefreshToken : Bool
  deriving DecidableEq, Repr

/-- `SessionManager.GetSessionInfo`: a load failure yields
`{Exists: false, Valid: false}` with a nil error; a loaded session is
described, `TimeRemaining` being assigned only when the session is valid
(`time.Until(expiresAt)` is `expiresAt - now`). -/
def GetSessionInfo (disk : DiskState) (now : Int) : SessionInfo × Option LoadError :=
  match LoadSession disk with
  | Except.error _ =>
    ({ exists_ := false, valid := false, expiresAt := 0,
       timeRemaining := none, hasRefreshToken := false }, none)
  | Except.ok s =>
    let valid := IsSessionValid (some s) now
    ({ exists_ := true, valid := valid, expiresAt := s.expiresAt,
       timeRemaining := if valid then some (s.expiresAt - now) else none,
       hasRefreshToken := s.refreshToken != "" }, none)


/-!
## Transport failure classification (`handleErrorResponse`, `isTextContent`)

Response bodies are `List Char` with Go's byte offsets recovered through
`Char.utf8Size`; the UTF-8 validity precheck of `isTextContent` holds by
construction in this model.
-/

/-- Byte length of a Go string (`len` on its bytes). -/
def byteLen (data : List Char) : Nat :=
  data.foldr (fun c n => c.utf8Size + n) 0

/-- The control-character tally of `isTextContent`: walk the runes with
their byte offsets, stop once the offset exceeds 1000 (the source's
`if i > 1000 break`), and count runes below 32 other than newline,
carriage return, and tab. -/
def countControl : List Char → Nat → Nat
  | [], _ => 0
  | c :: rest, i =>
    if i > 1000 then 0
    else
      (if c.toNat < 32 ∧ c ≠ '\n' ∧ c ≠ '\r' ∧ c ≠ '\t' then 1 else 0) +
        countControl rest (i + c.utf8Size)

/-- `isTextContent` from `helpers.go`: empty data is text; otherwise the
data is text when the control characters found at byte offsets up to 1000
are fewer than 10% of the whole byte length.  The source compares
`float64(controlChars)/float64(len(data)) < 0.1`; at every reachable
operand size this float comparison coincides with the exact
`10 * controlChars < len(data)` used here. -/
def isTextContent (data : List Char) : Bool :=
  if data.length = 0 then true
  else decide (10 * countControl data 0 < byteLen data)

/-- Go string slicing `s[:n]` by bytes, on the character model: keep
characters while they fit in the first `n` bytes (the bodies under proof
are ASCII, where this is exact). -/
def takeBytes (n : Nat) : List Char → List Char
  | [] => []
  | c :: rest => if c.utf8Size ≤ n then c :: takeBytes (n - c.utf8Size) rest else []

/-- The best-effort message `handleErrorResponse` builds from a raw body:
the fixed placeholder for non-text bodies, a 200-byte truncation with an
ellipsis for long text bodies, the body itself otherwise. -/
def errorBodyMessage (body : List Char) : String :=
  if ! isTextContent body then "[binary/compressed response]"
  else if byteLen body > 200 then String.mk (takeBytes 200 body) ++ "..."
  else String.mk body

/-- `handleErrorResponse` from `client.go`.  `envelopeError` is the error
field when the body parses as the structured `APIResponse` envelope with a
non-nil error, and `none` otherwise; in that second case the raw-body
message is surfaced. -/
def handleErrorResponse (statusCode : Int) (body : List Char)
    (envelopeError : Option String) : String :=
  let errorMsg := errorBodyMessage body
  match envelopeError with
  | some e => "API request failed with status " ++ toString statusCode ++ ": " ++ e
  | none => "API request failed with status " ++ toString statusCode ++ ": " ++ errorMsg


/-!
## Transaction filters and query construction
-/

/-- `TransactionFilters` from `client.go`.  `startDate`/`endDate` follow
the instant model; Go's zero `time.Time` is instant 0, so `IsZero` is
`= 0`.  The Go field `Include` is `include_` here. -/
structure TransactionFilters where
  limit : Int
  after : String
  countBy : String
  timeFilter : String
  include_ : String
  sortBy : String
  sortOrder : String
  startDate : Int
  endDate : Int
  accountID : String
  categoryID : String
  subcategoryID : String
  includeCountBy : Bool
  includeDetailed : Bool
  orCategory : Bool
  deriving DecidableEq, Repr

/-- The Go zero value of `TransactionFilters` (a completely empty filter
set). -/
def emptyFilters : TransactionFilters :=
  { limit := 0, after := "", countBy := "", timeFilter := "", include_ := "",
    sortBy := "", sortOrder := "", startDate := 0, endDate := 0,
    accountID := "", categoryID := "", subcategoryID := "",
    includeCountBy := false, includeDetailed := false, orCategory := false }

/-- `t.Format(time.RFC3339)`: some injective, never-empty rendering of the
instant — RFC3339 strings always end in a zone designator, which the
trailing character witnesses.  The properties proved inspect only
presence and non-emptiness of the rendered value. -/
def formatRFC3339 (t : Int) : String :=
  toString t ++ "Z"

/-- `buildTransactionQueryParams` from `client.go`, as the ordered list of
(key, value) pairs put into `url.Values`: each `Set` key is set at most
once and `include[]`/`or[]` use `Add`, so every written pair is kept. -/
def buildTransactionQueryParams (f : TransactionFilters) : List (String × String) :=
  (if f.limit > 0 then [("limit", toString f.limit)] else [])
  ++ (if f.after ≠ "" then [("after", f.after)] else [])
  ++ (if f.countBy ≠ "" then [("count_by", f.countBy)] else [])
  ++ (if f.timeFilter ≠ "" then [("time_filter", f.timeFilter)] else [])
  ++ (if f.include_ ≠ "" then [("include[]", f.include_)] else [])
  ++ (if f.sortBy ≠ "" then [("sort_by", f.sortBy)] else [])
  ++ (if f.sortOrder ≠ "" then [("sort_order", f.sortOrder)] else [])
  ++ (if f.startDate ≠ 0 then [("start_date", formatRFC3339 f.startDate)] else [])
  ++ (if f.endDate ≠ 0 then [("end_date", formatRFC3339 f.endDate)] else [])
  ++ (if f.categoryID ≠ "" then [("category_id", f.categoryID)] else [])
  ++ (if f.accountID ≠ "" then [("account_id[]", f.accountID)] else [])
  ++ (if f.subcategoryID ≠ "" then [("subcategory_id", f.subcategoryID)] else [])
  ++ (if f.includeCountBy then [("include[]", "count_by_totals")] else [])
  ++ (if f.includeDetailed then [("include[]", "detailed_search_summary")] else [])
  ++ (if f.orCategory then [("or[]", "subcategory_id"), ("or[]", "category_id")] else [])

/-- `url.Values.Encode`, up to its key sorting and escaping (which the
properties proved do not inspect): join the pairs as k=v with &. -/
def encodeParams : List (String × String) → String
  | [] => ""
  | [(k, v)] => k ++ "=" ++ v
  | (k, v) :: rest => k ++ "=" ++ v ++ "&" ++ encodeParams rest

/-- The URL `FetchTransactionsWithFilters` builds: the transactions path
for the user, with a query string appended only when at least one
parameter was produced. -/
def transactionsEndpoint (userID : String) (f : TransactionFilters) : String :=
  let params := buildTransactionQueryParams f
  let endpoint := "/api/v3/users/" ++ userID ++ "/transactions"
  if params.length > 0 then endpoint ++ "?" ++ encodeParams params else endpoint


/-!
## Pagination (`FetchAllTransactions`)

The remote endpoint is modelled by the finite sequence of pages it will
return on successive calls.  Page payloads are abstracted by type
parameters: the loop never inspects a transaction or a count beyond list
length, so `Txn`/`Cnt` stand for the `Transaction` and `TransactionCount`
records of `models.go`.
-/

/-- `TransactionsV3Data` from `models.go`, restricted to the fields the
pagination loop reads. -/
structure TransactionsV3Data (Txn Cnt : Type) where
  transactions : List Txn
  counts : List Cnt
  total : Int
  after : String
  deriving DecidableEq, Repr

/-- The loop's stop test: `data.After == "" || len(data.Transactions) < limit`. -/
def pageStops {Txn Cnt : Type} (limit : Int) (p : TransactionsV3Data Txn Cnt) : Bool :=
  p.after == "" || decide ((p.transactions.length : Int) < limit)

/-- Outcome of a pagination run: accumulated transactions and counts, the
cursor sent on each call in order, and whether the run finished through
the loop's own stop condition (`completed = false` models the immediate
error return when a fetch fails — here, the server had no further
response to give). -/
structure FetchAllResult (Txn Cnt : Type) where
  transactions : List Txn
  counts : List Cnt
  cursorsSent : List String
  completed : Bool
  deriving DecidableEq, Repr

/-- The loop of `FetchAllTransactions`: fetch with the current cursor,
append the page's transactions, append its counts when non-empty (as the
source guards; this equals plain concatenation), stop when the returned
cursor is empty or the page was short, else continue from the returned
cursor. -/
def fetchAllLoop {Txn Cnt : Type} (limit : Int) (after : String) :
    List (TransactionsV3Data Txn Cnt) → FetchAllResult Txn Cnt
  | [] => { transactions := [], counts := [], cursorsSent := [], completed := false }
  | p :: rest =>
    if pageStops limit p then
      { transactions := p.transactions,
        counts := if p.counts.length > 0 then p.counts else [],
        cursorsSent := [after],
        completed := true }
    else
      let r := fetchAllLoop limit p.after rest
      { transactions := p.transactions ++ r.transactions,
        counts := (if p.counts.length > 0 then p.counts else []) ++ r.counts,
        cursorsSent := after :: r.cursorsSent,
        completed := r.completed }

/-- `FetchAllTransactions` from `client.go`: run the loop starting from
the empty cursor. -/
def FetchAllTransactions {Txn Cnt : Type} (limit : Int)
    (pages : List (TransactionsV3Data Txn Cnt)) : FetchAllResult Txn Cnt :=
  fetchAllLoop limit "" pages


/-!
## Token refresh (`RefreshSession` over `doRequest`)

One HTTP exchange is described by an `ExchangeResult`: a transport-level
failure, or a response carrying a status code, an optional `marble-cookie`
response cookie, and the body's decoding as a `RefreshResponse` envelope
(`none` when `json.Unmarshal` would fail).  The functions under proof are
the deterministic code of `client.go` around that exchange;
`time.Parse(time.RFC3339, _)` is an arbitrary partial parse function.
-/

/-- `TokenData` from `models.go`. -/
structure TokenData where
  tokenType : String
  accessToken : String
  refreshToken : String
  expiresAt : String
  deriving DecidableEq, Repr

/-- `RefreshResponse` from `models.go`; the untyped `error` field is
carried as an optional message (nil or not is all the code inspects). -/
structure RefreshResponse where
  error : Option String
  data : TokenData
  deriving DecidableEq, Repr

/-- What one HTTP exchange yields. -/
inductive ExchangeResult where
  | transportError
  | response (statusCode : Int) (marbleCookie : Option String) (parsed : Option RefreshResponse)
  deriving DecidableEq, Repr

/-- `saveResponseCookies` from `client.go`: a `marble-cookie` among the
response cookies overwrites the session's stored value; a nil session or
no such cookie leaves everything alone. -/
def saveResponseCookies (sess : Option Session) (cookie : Option String) : Option Session :=
  match sess, cookie with
  | some s, some c => some { s with marbleCookie := c }
  | s, _ => s

/-- `doRequest` from `client.go`, for a request decoded as a
`RefreshResponse`: transport failures and non-2xx statuses return an
error without touching the session (the non-2xx branch goes through
`handleErrorResponse` before any cookie is saved); on a 2xx status the
response cookies are saved first and only then is the body decoded, a
decode failure returning an error. -/
def doRequest (sess : Option Session) (ex : ExchangeResult) :
    Option Session × Except Unit RefreshResponse :=
  match ex with
  | ExchangeResult.transportError => (sess, Except.error ())
  | ExchangeResult.response st cookie parsed =>
    if st < 200 ∨ 300 ≤ st then (sess, Except.error ())
    else
      let sess' := saveResponseCookies sess cookie
      match parsed with
      | none => (sess', Except.error ())
      | some env => (sess', Except.ok env)

/-- `RefreshRequest` from `models.go`: the refresh call's body. -/
structure RefreshRequest where
  refreshToken : String
  deriving DecidableEq, Repr

/-- Result of `RefreshSession`: the client's session afterwards, the body
sent (when a request was issued at all), and whether the call returned a
nil error. -/
structure RefreshOutcome where
  session : Option Session
  sent : Option RefreshRequest
  ok : Bool
  deriving DecidableEq, Repr

/-- `RefreshSession` from `client.go`.  No session or an empty refresh
token fails up front; otherwise the refresh body is sent, the exchange
must produce an envelope with nil error, the expiry string must parse as
RFC3339, and only then are the session's access token, refresh token,
token type, and expiry overwritten from the response.  (The inner `none`
branch is unreachable: the cookie save preserves session presence.) -/
def RefreshSession (parse : String → Option Int) (sess : Option Session)
    (ex : ExchangeResult) : RefreshOutcome :=
  match sess with
  | none => { session := none, sent := none, ok := false }
  | some s =>
    if s.refreshToken = "" then { session := some s, sent := none, ok := false }
    else
      let body : RefreshRequest := { refreshToken := s.refreshToken }
      match doRequest (some s) ex with
      | (sess', Except.error _) => { session := sess', sent := some body, ok := false }
      | (sess', Except.ok env) =>
        match env.error with
        | some _ => { session := sess', sent := some body, ok := false }
        | none =>
          match parse env.data.expiresAt with
          | none => { session := sess', sent := some body, ok := false }
          | some t =>
            match sess' with
            | none => { session := none, sent := some body, ok := false }
            | some s2 =>
              { session := some { s2 with
                  accessToken := env.data.accessToken,
                  refreshToken := env.data.refreshToken,
                  tokenType := env.data.tokenType,
                  expiresAt := t },
                sent := some body, ok := true }


/-!
## OTP login flow (`runOTPLogin` from `cmd/blend/login.go`)

`RequestOTP`, `VerifyOTP`, `GetDeviceHash`, and `SetDeviceHash` are not
among the sources; only their caller `runOTPLogin` is.  Modelled from the
spec: the two OTP calls carry the client's ambient device identity as the
device header together with the request identifier passed to them, and
the accessors read/write that ambient identity.  Each remote call is
therefore recorded with the device hash and request identifier it
carries, and its outcome is supplied by the environment.
-/

/-- The client state the OTP flow touches: the ambient device hash. -/
structure ClientState where
  deviceHash : String
  deriving DecidableEq, Repr

/-- Modelled from the spec: the identity pair an OTP call ("request" or
"verify") carries to the server. -/
structure OTPCall where
  deviceHash : String
  requestID : String
  deriving DecidableEq, Repr

/-- The environment of one `runOTPLogin` invocation: flag values, what
reading stdin would yield (`Except.error` models a read failure), the
fresh identifiers generated for the flow, and each remote step's
outcome (`verifyOutcome`'s payload is the refresh token issued;
`postOutcome` covers the config update, reload, and refresh-token login
that follow the verify). -/
structure OTPEnv where
  phoneFlag : String
  otpFlag : String
  phoneRead : Except Unit String
  otpRead : Except Unit String
  freshRequestID : String
  freshDeviceHash : String
  requestOutcome : Except Unit Unit
  verifyOutcome : Except Unit String
  postOutcome : Except Unit Unit

/-- Result of one flow run: the client afterwards, the recorded calls,
and whether the flow returned nil error. -/
structure OTPFlowResult where
  client : ClientState
  requestCalls : List OTPCall
  verifyCalls : List OTPCall
  ok : Bool
  deriving DecidableEq, Repr

/-- `runOTPLogin`: resolve the phone number (flag, else trimmed stdin);
generate the request id and device hash once; save the original device
hash and set the fresh one; request the OTP; resolve the OTP code (flag,
else trimmed stdin); verify; and on every exit path after the set —
request failure, OTP read failure, empty OTP, verify failure, success —
restore the original device hash before returning. -/
def runOTPLogin (client : ClientState) (env : OTPEnv) : OTPFlowResult :=
  let phoneRes : Except Unit String :=
    if env.phoneFlag ≠ "" then Except.ok env.phoneFlag
    else match env.phoneRead with
      | Except.error e => Except.error e
      | Except.ok input => Except.ok input.trim
  match phoneRes with
  | Except.error _ => { client := client, requestCalls := [], verifyCalls := [], ok := false }
  | Except.ok phone =>
    if phone = "" then
      { client := client, requestCalls := [], verifyCalls := [], ok := false }
    else
      let requestID := env.freshRequestID
      let originalDeviceHash := client.deviceHash
      let client1 : ClientState := { deviceHash := env.freshDeviceHash }
      let requestCall : OTPCall :=
        { deviceHash := client1.deviceHash, requestID := requestID }
      match env.requestOutcome with
      | Except.error _ =>
        { client := { deviceHash := originalDeviceHash },
          requestCalls := [requestCall], verifyCalls := [], ok := false }
      | Except.ok _ =>
        let otpRes : Except Unit String :=
          if env.otpFlag ≠ "" then Except.ok env.otpFlag
          else match env.otpRead with
            | Except.error e => Except.error e
            | Except.ok input => Except.ok input.trim
        match otpRes with
        | Except.error _ =>
          { client := { deviceHash := originalDeviceHash },
            requestCalls := [requestCall], verifyCalls := [], ok := false }
        | Except.ok otpCode =>
          if otpCode = "" then
            { client := { deviceHash := originalDeviceHash },
              requestCalls := [requestCall], verifyCalls := [], ok := false }
          else
            let verifyCall : OTPCall :=
              { deviceHash := client1.deviceHash, requestID := requestID }
            match env.verifyOutcome with
            | Except.error _ =>
              { client := { deviceHash := originalDeviceHash },
                requestCalls := [requestCall], verifyCalls := [verifyCall], ok := false }
            | Except.ok _ =>
              match env.postOutcome with
              | Except.error _ =>
                { client := { deviceHash := originalDeviceHash },
                  requestCalls := [requestCall], verifyCalls := [verifyCall], ok := false }
              | Except.ok _ =>
                { client := { deviceHash := originalDeviceHash },
                  requestCalls := [requestCall], verifyCalls := [verifyCall], ok := true }

/-!
## Device hash generation (`GenerateDeviceHash` from `utils.go`)
-/

/-- Go slice expression `b[lo:hi]` on a byte slice whose backing
allocation has the given capacity: legal when `lo ≤ hi ≤ cap(b)` (not
`len(b)`), Go's panic otherwise.  Reads past the length see the
allocation's tail, which the runtime zeroes
(`rawbyteslice` clears `[len, cap)`; the stack fast path zeroes its whole
temporary buffer). -/
def goSlice (data : List Nat) (capacity lo hi : Nat) : Option (List Nat) :=
  if lo ≤ hi ∧ hi ≤ capacity then
    some (((data ++ List.replicate (capacity - data.length) 0).drop lo).take (hi - lo))
  else none

/-- The gc allocator's `roundupsize` on small objects: a `[]byte(string)`
conversion's backing array is a size-class allocation, so its capacity is
the length rounded up to the next class (8, 16, 24, 32, 48, …, 128).
Past 128 only `cap ≥ len` is ever relied on by the slices this program
takes (whose bounds are at most 16), so the identity suffices there. -/
def roundupsize (n : Nat) : Nat :=
  if n ≤ 8 then 8
  else if n ≤ 16 then 16
  else if n ≤ 24 then 24
  else if n ≤ 32 then 32
  else if n ≤ 48 then 48
  else if n ≤ 64 then 64
  else if n ≤ 80 then 80
  else if n ≤ 96 then 96
  else if n ≤ 112 then 112
  else if n ≤ 128 then 128
  else n

/-- One byte as two lowercase hex digits (Go's %x on a byte slice). -/
def hexByte (n : Nat) : String :=
  let digits := "0123456789abcdef".data
  String.mk [digits.getD (n / 16 % 16) 'x', digits.getD (n % 16) 'x']

/-- A byte slice as lowercase hex. -/
def hexBytes (bs : List Nat) : String :=
  String.join (bs.map hexByte)

/-- UTF-8 encoding of one character. -/
def utf8EncodeChar (c : Char) : List Nat :=
  let v := c.toNat
  if v < 128 then [v]
  else if v < 2048 then [192 + v / 64, 128 + v % 64]
  else if v < 65536 then [224 + v / 4096, 128 + v / 64 % 64, 128 + v % 64]
  else [240 + v / 262144, 128 + v / 4096 % 64, 128 + v / 64 % 64, 128 + v % 64]

/-- `[]byte(s)`: the UTF-8 bytes of a string. -/
def utf8Bytes (s : String) : List Nat :=
  s.data.flatMap utf8EncodeChar

/-- Format five byte slices as a UUID-shaped string. -/
def uuidFormat (s1 s2 s3 s4 s5 : List Nat) : String :=
  hexBytes s1 ++ "-" ++ hexBytes s2 ++ "-" ++ hexBytes s3 ++ "-" ++
    hexBytes s4 ++ "-" ++ hexBytes s5

/-- The fallback branch of `GenerateDeviceHash`: the string
`fintrack-<hostname>-<user>` (user from USER, else USERNAME) is converted
to bytes — each of the five slice expressions performs its own
`[]byte(fallback)` conversion, of length `len(fallback)` and capacity
`roundupsize(len(fallback))` — and sliced at `[:4] [4:6] [6:8] [8:10]
[10:16]`; `none` stands for Go's panic on an out-of-range slice. -/
def fallbackDeviceHash (hostname user username : String) : Option String :=
  let user2 := if user ≠ "" then user else username
  let fallback := "fintrack-" ++ hostname ++ "-" ++ user2
  let fb := utf8Bytes fallback
  let capacity := roundupsize fb.length
  match goSlice fb capacity 0 4, goSlice fb capacity 4 6, goSlice fb capacity 6 8,
        goSlice fb capacity 8 10, goSlice fb capacity 10 16 with
  | some s1, some s2, some s3, some s4, some s5 =>
    some (uuidFormat s1 s2 s3 s4 s5)
  | _, _, _, _, _ => none

/-- The success path's formatting of the `make([]byte, 16)` buffer
(length and capacity 16): `b[0:4]-b[4:6]-b[6:8]-b[8:10]-b[10:]`. -/
def formatUUIDBuffer (b : List Nat) : Option String :=
  match goSlice b 16 0 4, goSlice b 16 4 6, goSlice b 16 6 8,
        goSlice b 16 8 10, goSlice b 16 10 b.length with
  | some s1, some s2, some s3, some s4, some s5 =>
    some (uuidFormat s1 s2 s3 s4 s5)
  | _, _, _, _, _ => none

/-- The successful-random branch of `GenerateDeviceHash`: the 16-byte
buffer gets UUID-v4 version/variant bits (`b[6] = b[6]&0x0f | 0x40`,
`b[8] = b[8]&0x3f | 0x80`, on byte values: `% 16 + 64` and `% 64 + 128`)
and is formatted. -/
def randomDeviceHash (randBytes : Fin 16 → Nat) : Option String :=
  let b0 := (List.finRange 16).map randBytes
  let b1 := b0.set 6 (b0.getD 6 0 % 16 + 64)
  let b2 := b1.set 8 (b1.getD 8 0 % 64 + 128)
  formatUUIDBuffer b2

/-- `GenerateDeviceHash` from `utils.go`: the random branch on a
successful read, the fallback branch when the read fails. -/
def GenerateDeviceHash (randFails : Bool) (randBytes : Fin 16 → Nat)
    (hostname user username : String) : Option String :=
  if randFails then
    fallbackDeviceHash hostname user username
  else
    randomDeviceHash randBytes

/-!
## Theorems
-/

/-- **C1.** Session validity: `IsSessionValid` holds exactly on a present
session whose access token is non-empty and whose expiry is at or after
`now` plus the 5-minute buffer (a nil session or a missing access token is
never valid).  Amended from the claim: the comparison the code performs is
`now + 5m <= expiresAt`, not the strict `now + 5m < expiresAt`. -/
theorem C1_session_validity (session : Option Session) (now : Int) :
    IsSessionValid session now = true ↔
      ∃ s, session = some s ∧ s.accessToken ≠ "" ∧ now + fiveMinutes ≤ s.expiresAt := by
  cases session with
  | none => simp [IsSessionValid]
  | some s =>
    simp only [IsSessionValid]
    constructor
    · intro h
      by_cases htok : s.accessToken = ""
      · simp [htok] at h
      · by_cases hexp : now + fiveMinutes > s.expiresAt
        · simp [htok, hexp] at h
        · exact ⟨s, rfl, htok, by omega⟩
    · rintro ⟨t, ht, htok, hexp⟩
      injection ht with ht
      subst ht
      have hle : ¬ now + fiveMinutes > s.expiresAt := by omega
      simp [htok, hle]

/-- **C1, counterexample to the claim as stated.** At the boundary where
`now + 5m` equals the expiry exactly, the code reports the session valid
while the claim (strict `<`) says it is not. -/
theorem C1_counterexample :
    IsSessionValid
      (some { accessToken := "a", refreshToken := "r", expiresAt := fiveMinutes,
              tokenType := "Bearer", marbleCookie := "", deviceHash := "d" }) 0 = true
    ∧ ¬ ((0 : Int) + fiveMinutes < fiveMinutes) := by
  constructor
  · rfl
  · omega

/-- **C7.** Save/load round trip: loading a saved session returns the same
session, all six fields preserved. -/
theorem C7_save_load_roundtrip (s : Session) :
    LoadSession (SaveSession s) = Except.ok s := rfl

/-- **C9.** `GetSessionInfo` never returns an error; every load failure
(absent, unreadable, or undecodable file) is reported exactly like a
missing file (`Exists = false`, `Valid = false`); and `TimeRemaining` is
assigned only when the loaded session is valid. -/
theorem C9_get_session_info (disk : DiskState) (now : Int) :
    (GetSessionInfo disk now).2 = none
    ∧ (∀ e, LoadSession disk = Except.error e →
        GetSessionInfo disk now = GetSessionInfo DiskState.absent now
        ∧ (GetSessionInfo disk now).1.exists_ = false
        ∧ (GetSessionInfo disk now).1.valid = false)
    ∧ ((GetSessionInfo disk now).1.timeRemaining ≠ none →
        (GetSessionInfo disk now).1.valid = true) := by
  refine ⟨?_, ?_, ?_⟩
  · unfold GetSessionInfo
    cases LoadSession disk <;> simp
  · intro e he
    unfold GetSessionInfo
    rw [he]
    simp [LoadSession]
  · unfold GetSessionInfo
    cases LoadSession disk with
    | error e => simp
    | ok s =>
      simp only
      intro h
      by_cases hv : IsSessionValid (some s) now = true
      · exact hv
      · simp [hv] at h

/-- **C9, witness.** A corrupt (non-JSON) session file: no error is
returned and the report equals that of an absent file. -/
theorem C9_witness :
    (GetSessionInfo DiskState.invalidJson 0).2 = none
    ∧ GetSessionInfo DiskState.invalidJson 0 = GetSessionInfo DiskState.absent 0
    ∧ (GetSessionInfo DiskState.invalidJson 0).1.exists_ = false
    ∧ (GetSessionInfo DiskState.invalidJson 0).1.valid = false := by
  have h := C9_get_session_info DiskState.invalidJson 0
  have h2 := h.2.1 LoadError.decodeFailed rfl
  exact ⟨h.1, h2.1, h2.2.1, h2.2.2⟩

/-- An ASCII character occupies one byte. -/
theorem utf8Size_eq_one_of_lt_128 (c : Char) (h : c.toNat < 128) : c.utf8Size = 1 := by
  have hv : c.val ≤ 0x7F := by
    rw [UInt32.le_def]
    have h3 : c.val.toBitVec.toNat = c.toNat := rfl
    have h4 : (UInt32.toBitVec 0x7F).toNat = 127 := rfl
    rw [BitVec.le_def, h3, h4]
    omega
  simp [Char.utf8Size, hv]

/-- A body of printable characters has no control characters to count. -/
theorem countControl_eq_zero_of_printable :
    ∀ (body : List Char) (i : Nat), (∀ c ∈ body, 32 ≤ c.toNat) → countControl body i = 0
  | [], _, _ => rfl
  | c :: rest, i, h => by
    have hc := h c (List.mem_cons_self c rest)
    have hrest : ∀ x ∈ rest, 32 ≤ x.toNat := fun x hx => h x (List.mem_cons_of_mem c hx)
    unfold countControl
    by_cases hi : i > 1000
    · simp [hi]
    · have hnc : ¬ (c.toNat < 32 ∧ c ≠ '\n' ∧ c ≠ '\r' ∧ c ≠ '\t') := by
        rintro ⟨h32, -⟩
        omega
      simp [hi, hnc, countControl_eq_zero_of_printable rest _ hrest]

/-- On ASCII bodies, byte length and character count coincide. -/
theorem byteLen_eq_length_of_ascii :
    ∀ body : List Char, (∀ c ∈ body, c.toNat < 128) → byteLen body = body.length
  | [], _ => rfl
  | c :: rest, h => by
    have hc : c.utf8Size = 1 :=
      utf8Size_eq_one_of_lt_128 c (h c (List.mem_cons_self c rest))
    have hrest : ∀ x ∈ rest, x.toNat < 128 := fun x hx => h x (List.mem_cons_of_mem c hx)
    show c.utf8Size + byteLen rest = rest.length + 1
    rw [hc, byteLen_eq_length_of_ascii rest hrest]
    omega

/-- **C3.** Error body surfacing, amended.  (1) A 5000-printable-character
body that does not parse as the error envelope is surfaced as its first
200 characters plus an ellipsis.  (2) Amended from the claim: the density
check that selects the placeholder compares the control characters found
in the first 1000 bytes against 10% of the **entire** body length — not
10% of those first 1000 bytes — so `isTextContent` rejects a non-empty
body exactly when `byteLen body ≤ 10 * countControl body 0`.  (3) Whenever
that check rejects the body, the fixed placeholder string is surfaced. -/
theorem C3_error_body_truncation (st : Int) :
    (∀ body : List Char, body.length = 5000 →
        (∀ c ∈ body, 32 ≤ c.toNat ∧ c.toNat < 127) →
        handleErrorResponse st body none =
          "API request failed with status " ++ toString st ++ ": "
            ++ (String.mk (takeBytes 200 body) ++ "..."))
    ∧ (∀ body : List Char, body ≠ [] →
        (isTextContent body = false ↔ byteLen body ≤ 10 * countControl body 0))
    ∧ (∀ body : List Char, isTextContent body = false →
        handleErrorResponse st body none =
          "API request failed with status " ++ toString st
            ++ ": " ++ "[binary/compressed response]") := by
  refine ⟨?_, ?_, ?_⟩
  · intro body hlen hprint
    have hctrl : countControl body 0 = 0 :=
      countControl_eq_zero_of_printable body 0 (fun c hc => (hprint c hc).1)
    have hbl : byteLen body = 5000 := by
      rw [byteLen_eq_length_of_ascii body (fun c hc => by
        have := (hprint c hc).2
        omega), hlen]
    have htext : isTextContent body = true := by
      unfold isTextContent
      rw [if_neg (by omega), hctrl, hbl]
      decide
    unfold handleErrorResponse errorBodyMessage
    rw [htext, hbl]
    simp
  · intro body hne
    have hlen0 : ¬ body.length = 0 := by
      simpa [List.length_eq_zero] using hne
    unfold isTextContent
    rw [if_neg hlen0]
    simp [Nat.not_lt]
  · intro body hbin
    unfold handleErrorResponse errorBodyMessage
    rw [hbin]
    simp

/-- **C3, counterexample to the claim as stated.** A body whose first 1000
bytes are more than 10% control characters (101 of them), followed by
enough printable padding that the code's density ratio — divided by the
whole length, 1011 — falls below 10%: the message surfaced is the
truncated body, not the placeholder. -/
theorem C3_counterexample :
    10 * countControl
        (takeBytes 1000 (List.replicate 101 (Char.ofNat 1) ++ List.replicate 910 'a')) 0 > 1000
    ∧ handleErrorResponse 400
        (List.replicate 101 (Char.ofNat 1) ++ List.replicate 910 'a') none ≠
        "API request failed with status 400: [binary/compressed response]" := by
  set_option maxRecDepth 10000 in decide

/-- **C3, witness.** The amended theorem applied to a concrete
5000-character printable body and a concrete one-byte binary body. -/
theorem C3_witness :
    handleErrorResponse 400 (List.replicate 5000 'a') none =
      "API request failed with status " ++ toString (400 : Int) ++ ": "
        ++ (String.mk (takeBytes 200 (List.replicate 5000 'a')) ++ "...")
    ∧ (isTextContent [Char.ofNat 1] = false ↔
        byteLen [Char.ofNat 1] ≤ 10 * countControl [Char.ofNat 1] 0)
    ∧ handleErrorResponse 400 [Char.ofNat 1] none =
        "API request failed with status " ++ toString (400 : Int)
          ++ ": " ++ "[binary/compressed response]" := by
  refine ⟨(C3_error_body_truncation 400).1 (List.replicate 5000 'a')
            (List.length_replicate 5000 'a') ?_,
          (C3_error_body_truncation 400).2.1 [Char.ofNat 1] (by decide),
          (C3_error_body_truncation 400).2.2 [Char.ofNat 1] (by decide)⟩
  intro c hc
  rw [List.eq_of_mem_replicate hc]
  decide

/-- Membership under a guarded parameter segment. -/
theorem mem_ite_nil {α : Type} (p : α) (c : Prop) [Decidable c] (l : List α) :
    (p ∈ (if c then l else [])) ↔ (c ∧ p ∈ l) := by
  split <;> simp_all

/-- Key membership under a guarded parameter segment. -/
theorem mem_map_fst_ite (k : String) (c : Prop) [Decidable c] (l : List (String × String)) :
    (k ∈ (if c then l else []).map Prod.fst) ↔ (c ∧ k ∈ l.map Prod.fst) := by
  split <;> simp_all

/-- `Nat.toDigitsCore` never empties a non-empty accumulator. -/
theorem toDigitsCore_ne_nil (b f n : Nat) (c : Char) (tl : List Char) :
    Nat.toDigitsCore b f n (c :: tl) ≠ [] := by
  intro h
  have hl := Nat.toDigitsCore_lens_eq b f n c tl
  rw [h] at hl
  simp at hl

/-- Decimal digit lists are never empty. -/
theorem toDigits_ne_nil (n : Nat) : Nat.toDigits 10 n ≠ [] := by
  show Nat.toDigitsCore 10 (n + 1) n [] ≠ []
  rw [Nat.toDigitsCore]
  split
  · simp
  · exact toDigitsCore_ne_nil 10 n (n / 10) _ []

/-- A natural number's decimal rendering is never the empty string. -/
theorem natRepr_ne_empty (n : Nat) : Nat.repr n ≠ "" := by
  intro h
  exact toDigits_ne_nil n (congrArg String.data h)

/-- An integer's decimal rendering is never the empty string. -/
theorem toString_int_ne_empty (i : Int) : toString i ≠ "" := by
  cases i with
  | ofNat m => exact natRepr_ne_empty m
  | negSucc m =>
    intro h
    have h2 : "-" ++ Nat.repr (m + 1) = "" := h
    have hd := congrArg String.data h2
    rw [String.data_append] at hd
    simp at hd

/-- An RFC3339 rendering is never the empty string. -/
theorem formatRFC3339_ne_empty (t : Int) : formatRFC3339 t ≠ "" := by
  intro h
  have hd := congrArg String.data (show toString t ++ "Z" = "" from h)
  rw [String.data_append] at hd
  simp at hd

/-- **C6.** Query construction: each filter key appears exactly when its
field is non-empty / non-zero / true (in particular a zero or negative
limit is never sent), every emitted parameter carries a non-empty value,
and the empty filter set produces no parameters at all, so the request
URL is the bare transactions path with no query string. -/
theorem C6_filter_query_params (f : TransactionFilters) (userID : String) :
    (("limit" ∈ (buildTransactionQueryParams f).map Prod.fst ↔ 0 < f.limit)
      ∧ ("after" ∈ (buildTransactionQueryParams f).map Prod.fst ↔ f.after ≠ "")
      ∧ ("count_by" ∈ (buildTransactionQueryParams f).map Prod.fst ↔ f.countBy ≠ "")
      ∧ ("time_filter" ∈ (buildTransactionQueryParams f).map Prod.fst ↔ f.timeFilter ≠ "")
      ∧ ("sort_by" ∈ (buildTransactionQueryParams f).map Prod.fst ↔ f.sortBy ≠ "")
      ∧ ("sort_order" ∈ (buildTransactionQueryParams f).map Prod.fst ↔ f.sortOrder ≠ "")
      ∧ ("start_date" ∈ (buildTransactionQueryParams f).map Prod.fst ↔ f.startDate ≠ 0)
      ∧ ("end_date" ∈ (buildTransactionQueryParams f).map Prod.fst ↔ f.endDate ≠ 0)
      ∧ ("category_id" ∈ (buildTransactionQueryParams f).map Prod.fst ↔ f.categoryID ≠ "")
      ∧ ("account_id[]" ∈ (buildTransactionQueryParams f).map Prod.fst ↔ f.accountID ≠ "")
      ∧ ("subcategory_id" ∈ (buildTransactionQueryParams f).map Prod.fst ↔ f.subcategoryID ≠ "")
      ∧ ("include[]" ∈ (buildTransactionQueryParams f).map Prod.fst ↔
          (f.include_ ≠ "" ∨ f.includeCountBy = true ∨ f.includeDetailed = true))
      ∧ ("or[]" ∈ (buildTransactionQueryParams f).map Prod.fst ↔ f.orCategory = true))
    ∧ (∀ p ∈ buildTransactionQueryParams f, p.2 ≠ "")
    ∧ (f = emptyFilters →
        buildTransactionQueryParams f = []
        ∧ transactionsEndpoint userID f = "/api/v3/users/" ++ userID ++ "/transactions") := by
  refine ⟨⟨?_, ?_, ?_, ?_, ?_, ?_, ?_, ?_, ?_, ?_, ?_, ?_, ?_⟩, ?_, ?_⟩
  · simp [buildTransactionQueryParams, mem_map_fst_ite]
  · simp [buildTransactionQueryParams, mem_map_fst_ite]
  · simp [buildTransactionQueryParams, mem_map_fst_ite]
  · simp [buildTransactionQueryParams, mem_map_fst_ite]
  · simp [buildTransactionQueryParams, mem_map_fst_ite]
  · simp [buildTransactionQueryParams, mem_map_fst_ite]
  · simp [buildTransactionQueryParams, mem_map_fst_ite]
  · simp [buildTransactionQueryParams, mem_map_fst_ite]
  · simp [buildTransactionQueryParams, mem_map_fst_ite]
  · simp [buildTransactionQueryParams, mem_map_fst_ite]
  · simp [buildTransactionQueryParams, mem_map_fst_ite]
  · simp [buildTransactionQueryParams, mem_map_fst_ite]
  · simp [buildTransactionQueryParams, mem_map_fst_ite]
  · intro p hp
    simp only [buildTransactionQueryParams, List.mem_append, mem_ite_nil,
      List.mem_singleton, List.mem_cons, List.not_mem_nil, or_false] at hp
    rcases hp with
      ((((((((((((((⟨hc, rfl⟩ | ⟨hc, rfl⟩) | ⟨hc, rfl⟩) | ⟨hc, rfl⟩) | ⟨hc, rfl⟩) | ⟨hc, rfl⟩) | ⟨hc, rfl⟩) | ⟨hc, rfl⟩) | ⟨hc, rfl⟩) | ⟨hc, rfl⟩) | ⟨hc, rfl⟩) | ⟨hc, rfl⟩) | ⟨hc, rfl⟩) | ⟨hc, rfl⟩) | ⟨hc, rfl | rfl⟩)
    · exact toString_int_ne_empty f.limit
    · exact hc
    · exact hc
    · exact hc
    · exact hc
    · exact hc
    · exact hc
    · exact formatRFC3339_ne_empty f.startDate
    · exact formatRFC3339_ne_empty f.endDate
    · exact hc
    · exact hc
    · exact hc
    · decide
    · decide
    · decide
    · decide
  · intro h
    subst h
    exact ⟨rfl, rfl⟩

/-- **C6, witness.** The empty filter set at a concrete user id: no
parameters, and a query-less URL. -/
theorem C6_witness :
    buildTransactionQueryParams emptyFilters = []
    ∧ transactionsEndpoint "u42" emptyFilters = "/api/v3/users/" ++ "u42" ++ "/transactions" :=
  (C6_filter_query_params emptyFilters "u42").2.2 rfl

/-- The source's guarded counts append is plain concatenation. -/
theorem countsIf_eq {α : Type} (l : List α) : (if l.length > 0 then l else []) = l := by
  split
  · rfl
  · rename_i h
    have : l.length = 0 := by omega
    simp [List.length_eq_zero] at this
    rw [this]

/-- Unrolled description of a terminating pagination run: with non-stopping
pages `front` followed by a stopping page `last`, the loop consumes exactly
`front ++ [last]`, concatenates their payloads, and sends the starting
cursor followed by each consumed page's returned cursor. -/
theorem fetchAllLoop_spec {Txn Cnt : Type} (limit : Int) :
    ∀ (front : List (TransactionsV3Data Txn Cnt)) (last : TransactionsV3Data Txn Cnt)
      (rest : List (TransactionsV3Data Txn Cnt)) (after : String),
      (∀ p ∈ front, pageStops limit p = false) → pageStops limit last = true →
      fetchAllLoop limit after (front ++ last :: rest) =
        { transactions := ((front ++ [last]).map (fun p => p.transactions)).flatten,
          counts := ((front ++ [last]).map (fun p => p.counts)).flatten,
          cursorsSent := after :: front.map (fun p => p.after),
          completed := true } := by
  intro front
  induction front with
  | nil =>
    intro last rest after _ hlast
    simp [fetchAllLoop, hlast, countsIf_eq]
  | cons p front ih =>
    intro last rest after hfront hlast
    have hp : pageStops limit p = false := hfront p (List.mem_cons_self p front)
    have hrest : ∀ q ∈ front, pageStops limit q = false :=
      fun q hq => hfront q (List.mem_cons_of_mem p hq)
    show fetchAllLoop limit after (p :: (front ++ last :: rest)) = _
    rw [fetchAllLoop, if_neg (by simp [hp])]
    rw [ih last rest p.after hrest hlast]
    simp [countsIf_eq]

/-- If every element of a list is at least `k`, the sum is at least
`length * k`. -/
theorem length_mul_le_sum (k : Nat) :
    ∀ l : List Nat, (∀ x ∈ l, k ≤ x) → l.length * k ≤ l.sum := by
  intro l
  induction l with
  | nil => intro _; simp
  | cons x l ih =>
    intro h
    have hx := h x (List.mem_cons_self x l)
    have hl := ih (fun y hy => h y (List.mem_cons_of_mem x hy))
    simp only [List.length_cons, List.sum_cons]
    calc (l.length + 1) * k = l.length * k + k := by ring
    _ ≤ l.sum + x := Nat.add_le_add hl hx
    _ = x + l.sum := by omega

/-- **C2.** Pagination, amended.  For any run in which the server produces
non-stopping pages `front` (full page and non-empty cursor) and then a
first stopping page `last` (empty cursor or short page), with positive
page size: the loop issues the first request with the empty cursor, then
reuses each consumed page's returned cursor, consumes exactly
`front ++ [last]` (stopping at the first stopping page regardless of any
further pages), returns the concatenation of the consumed pages'
transactions and counts, and makes `floor(total/limit) + 1` calls at
most — amended from the claim's `ceil(total/limit)`, which fails when the
page size divides the total. -/
theorem C2_pagination {Txn Cnt : Type} (limit : Int)
    (front : List (TransactionsV3Data Txn Cnt)) (last : TransactionsV3Data Txn Cnt)
    (rest : List (TransactionsV3Data Txn Cnt))
    (hlim : 0 < limit)
    (hfront : ∀ p ∈ front, pageStops limit p = false)
    (hlast : pageStops limit last = true) :
    FetchAllTransactions limit (front ++ last :: rest) =
      { transactions := ((front ++ [last]).map (fun p => p.transactions)).flatten,
        counts := ((front ++ [last]).map (fun p => p.counts)).flatten,
        cursorsSent := "" :: front.map (fun p => p.after),
        completed := true }
    ∧ (FetchAllTransactions limit (front ++ last :: rest)).cursorsSent.length ≤
        (FetchAllTransactions limit (front ++ last :: rest)).transactions.length
          / limit.toNat + 1 := by
  have hmain := fetchAllLoop_spec limit front last rest "" hfront hlast
  have hmain' : FetchAllTransactions limit (front ++ last :: rest) =
      { transactions := ((front ++ [last]).map (fun p => p.transactions)).flatten,
        counts := ((front ++ [last]).map (fun p => p.counts)).flatten,
        cursorsSent := "" :: front.map (fun p => p.after),
        completed := true } := hmain
  refine ⟨hmain', ?_⟩
  rw [hmain']
  show ("" :: front.map (fun p => p.after)).length ≤
    ((front ++ [last]).map (fun p => p.transactions)).flatten.length / limit.toNat + 1
  have hlim0 : 0 < limit.toNat := by omega
  have h2 : ∀ x ∈ front.map (fun p => p.transactions.length), limit.toNat ≤ x := by
    intro x hx
    rcases List.mem_map.mp hx with ⟨p, hp, rfl⟩
    have hps := hfront p hp
    simp only [pageStops, Bool.or_eq_false_iff, decide_eq_false_iff_not, beq_eq_false_iff_ne,
      Int.not_lt] at hps
    omega
  have h3 := length_mul_le_sum limit.toNat (front.map (fun p => p.transactions.length)) h2
  rw [List.length_map] at h3
  have h4 : ((front ++ [last]).map (fun p => p.transactions)).flatten.length
      = (front.map (fun p => p.transactions.length)).sum + last.transactions.length := by
    simp only [List.map_append, List.flatten_append, List.length_append,
      List.length_flatten, List.map_map]
    rfl
  rw [h4]
  have h5 : front.length ≤
      ((front.map (fun p => p.transactions.length)).sum + last.transactions.length)
        / limit.toNat :=
    (Nat.le_div_iff_mul_le hlim0).mpr (Nat.le_trans h3 (Nat.le_add_right _ _))
  simpa using Nat.add_le_add_right h5 1

/-- **C2, counterexample to the claim as stated.** Page size 1; the server
returns one full page with a non-empty cursor, then an empty page with an
empty cursor: two calls are made for a total of one transaction, but
`ceil(1/1) = 1`. -/
theorem C2_counterexample :
    (FetchAllTransactions 1
      [{ transactions := [7], counts := [], total := 1, after := "x" },
       { transactions := [], counts := [], total := 1, after := "" }]
      : FetchAllResult Nat Nat).completed = true
    ∧ (FetchAllTransactions 1
        [{ transactions := ([7] : List Nat), counts := ([] : List Nat), total := 1, after := "x" },
         { transactions := [], counts := [], total := 1, after := "" }]).cursorsSent.length = 2
    ∧ (FetchAllTransactions 1
        [{ transactions := ([7] : List Nat), counts := ([] : List Nat), total := 1, after := "x" },
         { transactions := [], counts := [], total := 1, after := "" }]).transactions.length = 1
    ∧ ¬ (2 ≤ (1 + 1 - 1) / 1) := by
  decide

/-- **C2, witness.** A concrete two-page run with page size 1: one full
page with cursor "x", then a short page; the amended theorem applies. -/
theorem C2_witness :
    (FetchAllTransactions 1
      [{ transactions := [7], counts := [5], total := 2, after := "x" },
       { transactions := [8], counts := [], total := 2, after := "" }]
      : FetchAllResult Nat Nat) =
      { transactions := [7, 8], counts := [5], cursorsSent := ["", "x"], completed := true }
    ∧ (2 : Nat) ≤ 2 / (1 : Int).toNat + 1 := by
  have h := C2_pagination 1
    [{ transactions := [7], counts := [5], total := 2, after := "x" }]
    { transactions := [8], counts := [], total := 2, after := "" }
    [] (by decide) (by decide) (by decide)
  exact ⟨h.1.trans (by rfl), h.2⟩

theorem RefreshSession_sent (parse : String → Option Int) (s : Session) (ex : ExchangeResult)
    (hrt : s.refreshToken ≠ "") :
    (RefreshSession parse (some s) ex).sent = some { refreshToken := s.refreshToken } := by
  cases ex with
  | transportError => simp [RefreshSession, doRequest, hrt]
  | response st cookie parsed =>
    by_cases hst : st < 200 ∨ 300 ≤ st
    · simp [RefreshSession, doRequest, hrt, hst]
    · cases cookie with
      | none =>
        cases parsed with
        | none => simp [RefreshSession, doRequest, saveResponseCookies, hrt, hst]
        | some env =>
          cases henv : env.error with
          | none =>
            cases hp : parse env.data.expiresAt with
            | none => simp [RefreshSession, doRequest, saveResponseCookies, hrt, hst, henv, hp]
            | some t0 => simp [RefreshSession, doRequest, saveResponseCookies, hrt, hst, henv, hp]
          | some msg => simp [RefreshSession, doRequest, saveResponseCookies, hrt, hst, henv]
      | some c =>
        cases parsed with
        | none => simp [RefreshSession, doRequest, saveResponseCookies, hrt, hst]
        | some env =>
          cases henv : env.error with
          | none =>
            cases hp : parse env.data.expiresAt with
            | none => simp [RefreshSession, doRequest, saveResponseCookies, hrt, hst, henv, hp]
            | some t0 => simp [RefreshSession, doRequest, saveResponseCookies, hrt, hst, henv, hp]
          | some msg => simp [RefreshSession, doRequest, saveResponseCookies, hrt, hst, henv]

theorem RefreshSession_ok_iff (parse : String → Option Int) (s : Session) (ex : ExchangeResult)
    (hrt : s.refreshToken ≠ "") :
    ((RefreshSession parse (some s) ex).ok = true ↔
      ∃ st cookie env t, ex = ExchangeResult.response st cookie (some env)
        ∧ 200 ≤ st ∧ st < 300 ∧ env.error = none ∧ parse env.data.expiresAt = some t) := by
  cases ex with
  | transportError => simp [RefreshSession, doRequest, hrt]
  | response st cookie parsed =>
    by_cases hst : st < 200 ∨ 300 ≤ st
    · simp only [RefreshSession, doRequest, hrt, hst]
      simp [hrt, hst]
      intro st1 cookie1 env t h1 h2 h3
      omega
    · cases cookie with
      | none =>
        cases parsed with
        | none => simp [RefreshSession, doRequest, saveResponseCookies, hrt, hst]
        | some env =>
          cases henv : env.error with
          | none =>
            cases hp : parse env.data.expiresAt with
            | none =>
              simp [RefreshSession, doRequest, saveResponseCookies, hrt, hst, henv, hp]
            | some t0 =>
              simp only [RefreshSession, doRequest, saveResponseCookies, hrt, hst, henv, hp]
              simp [hrt, hst, henv, hp]
              exact ⟨st, none, env, ⟨rfl, rfl, rfl⟩, by omega, by omega, henv, t0, hp⟩
          | some msg => simp [RefreshSession, doRequest, saveResponseCookies, hrt, hst, henv]
      | some c =>
        cases parsed with
        | none => simp [RefreshSession, doRequest, saveResponseCookies, hrt, hst]
        | some env =>
          cases henv : env.error with
          | none =>
            cases hp : parse env.data.expiresAt with
            | none =>
              simp [RefreshSession, doRequest, saveResponseCookies, hrt, hst, henv, hp]
            | some t0 =>
              simp only [RefreshSession, doRequest, saveResponseCookies, hrt, hst, henv, hp]
              simp [hrt, hst, henv, hp]
              exact ⟨st, some c, env, ⟨rfl, rfl, rfl⟩, by omega, by omega, henv, t0, hp⟩
          | some msg => simp [RefreshSession, doRequest, saveResponseCookies, hrt, hst, henv]

theorem RefreshSession_success_session (parse : String → Option Int) (s : Session)
    (st : Int) (cookie : Option String) (env : RefreshResponse) (t : Int)
    (hrt : s.refreshToken ≠ "") (h200 : 200 ≤ st) (h300 : st < 300)
    (herr : env.error = none) (hp : parse env.data.expiresAt = some t) :
    (RefreshSession parse (some s) (ExchangeResult.response st cookie (some env))).session =
      some { accessToken := env.data.accessToken,
             refreshToken := env.data.refreshToken,
             expiresAt := t,
             tokenType := env.data.tokenType,
             marbleCookie := cookie.getD s.marbleCookie,
             deviceHash := s.deviceHash } := by
  have hst : ¬ (st < 200 ∨ 300 ≤ st) := by omega
  cases cookie with
  | none => simp [RefreshSession, doRequest, saveResponseCookies, hrt, hst, herr, hp]
  | some c => simp [RefreshSession, doRequest, saveResponseCookies, hrt, hst, herr, hp]

/-- **C5.** `RefreshSession` sends exactly the session's refresh token as
the request body; it succeeds exactly when the exchange produced a 2xx
response whose decoded envelope has a nil error and whose expiry string
parses (a parse failure fails the flow — no second exchange exists in the
model to retry with); and on success the session's access token, refresh
token, token type, and expiry are overwritten from the response, the
expiry being the parsed instant. -/
theorem C5_refresh_session (parse : String → Option Int) (s : Session) (ex : ExchangeResult)
    (hrt : s.refreshToken ≠ "") :
    (RefreshSession parse (some s) ex).sent = some { refreshToken := s.refreshToken }
    ∧ ((RefreshSession parse (some s) ex).ok = true ↔
        ∃ st cookie env t, ex = ExchangeResult.response st cookie (some env)
          ∧ 200 ≤ st ∧ st < 300 ∧ env.error = none ∧ parse env.data.expiresAt = some t)
    ∧ (∀ st cookie env t, ex = ExchangeResult.response st cookie (some env) →
        200 ≤ st → st < 300 → env.error = none → parse env.data.expiresAt = some t →
        (RefreshSession parse (some s) ex).session =
          some { accessToken := env.data.accessToken,
                 refreshToken := env.data.refreshToken,
                 expiresAt := t,
                 tokenType := env.data.tokenType,
                 marbleCookie := cookie.getD s.marbleCookie,
                 deviceHash := s.deviceHash }) := by
  refine ⟨RefreshSession_sent parse s ex hrt, RefreshSession_ok_iff parse s ex hrt, ?_⟩
  intro st cookie env t heq h200 h300 herr hp
  subst heq
  exact RefreshSession_success_session parse s st cookie env t hrt h200 h300 herr hp

/-- **C5, witness.** Refresh token "abc": the body sent is exactly it; a
200 response whose envelope parses with nil error and expiry string "E"
(parsing to instant 3600) succeeds and overwrites the four token fields. -/
theorem C5_witness :
    (RefreshSession (fun x => if x = "E" then some 3600 else none)
      (some { accessToken := "", refreshToken := "abc", expiresAt := 0,
              tokenType := "Bearer", marbleCookie := "", deviceHash := "d1" })
      (ExchangeResult.response 200 none
        (some { error := none,
                data := { tokenType := "Bearer", accessToken := "at",
                          refreshToken := "rt2", expiresAt := "E" } }))).sent =
      some { refreshToken := "abc" }
    ∧ (RefreshSession (fun x => if x = "E" then some 3600 else none)
        (some { accessToken := "", refreshToken := "abc", expiresAt := 0,
                tokenType := "Bearer", marbleCookie := "", deviceHash := "d1" })
        (ExchangeResult.response 200 none
          (some { error := none,
                  data := { tokenType := "Bearer", accessToken := "at",
                            refreshToken := "rt2", expiresAt := "E" } }))).ok = true
    ∧ (RefreshSession (fun x => if x = "E" then some 3600 else none)
        (some { accessToken := "", refreshToken := "abc", expiresAt := 0,
                tokenType := "Bearer", marbleCookie := "", deviceHash := "d1" })
        (ExchangeResult.response 200 none
          (some { error := none,
                  data := { tokenType := "Bearer", accessToken := "at",
                            refreshToken := "rt2", expiresAt := "E" } }))).session =
      some { accessToken := "at", refreshToken := "rt2", expiresAt := 3600,
             tokenType := "Bearer", marbleCookie := "", deviceHash := "d1" } := by
  have h := C5_refresh_session (fun x => if x = "E" then some 3600 else none)
    { accessToken := "", refreshToken := "abc", expiresAt := 0,
      tokenType := "Bearer", marbleCookie := "", deviceHash := "d1" }
    (ExchangeResult.response 200 none
      (some { error := none,
              data := { tokenType := "Bearer", accessToken := "at",
                        refreshToken := "rt2", expiresAt := "E" } }))
    (by decide)
  refine ⟨h.1, h.2.1.mpr ⟨200, none,
    { error := none,
      data := { tokenType := "Bearer", accessToken := "at",
                refreshToken := "rt2", expiresAt := "E" } },
    3600, rfl, by omega, by omega, rfl, by decide⟩, ?_⟩
  exact h.2.2 200 none
    { error := none,
      data := { tokenType := "Bearer", accessToken := "at",
                refreshToken := "rt2", expiresAt := "E" } }
    3600 rfl (by omega) (by omega) rfl (by decide)

/-- **C8.** Refresh failure atomicity, amended.  Whenever `RefreshSession`
fails, the client's session is either exactly as before, or — when a 2xx
response carried a `marble-cookie` but the envelope or expiry check then
failed — as before except for the marble cookie.  In particular the access
token, refresh token, token type, expiry, and device hash are never
changed on a failure path; they are mutated only after every check has
passed.  Amended from the claim: the marble cookie alone can change. -/
theorem C8_refresh_failure_atomicity (parse : String → Option Int)
    (sess : Option Session) (ex : ExchangeResult)
    (hfail : (RefreshSession parse sess ex).ok = false) :
    (RefreshSession parse sess ex).session = sess
    ∨ ∃ s c, sess = some s ∧
        (RefreshSession parse sess ex).session =
          some { accessToken := s.accessToken, refreshToken := s.refreshToken,
                 expiresAt := s.expiresAt, tokenType := s.tokenType,
                 marbleCookie := c, deviceHash := s.deviceHash } := by
  cases sess with
  | none => left; simp [RefreshSession]
  | some s =>
    by_cases hrt : s.refreshToken = ""
    · left; simp [RefreshSession, hrt]
    · cases ex with
      | transportError => left; simp [RefreshSession, doRequest, hrt]
      | response st cookie parsed =>
        by_cases hst : st < 200 ∨ 300 ≤ st
        · left; simp [RefreshSession, doRequest, hrt, hst]
        · cases cookie with
          | none =>
            cases parsed with
            | none => left; simp [RefreshSession, doRequest, saveResponseCookies, hrt, hst]
            | some env =>
              cases henv : env.error with
              | some msg =>
                left
                simp [RefreshSession, doRequest, saveResponseCookies, hrt, hst, henv]
              | none =>
                cases hp : parse env.data.expiresAt with
                | none =>
                  left
                  simp [RefreshSession, doRequest, saveResponseCookies, hrt, hst, henv, hp]
                | some t0 =>
                  exfalso
                  simp [RefreshSession, doRequest, saveResponseCookies, hrt, hst, henv, hp]
                    at hfail
          | some c =>
            cases parsed with
            | none =>
              right
              exact ⟨s, c, rfl,
                by simp [RefreshSession, doRequest, saveResponseCookies, hrt, hst]⟩
            | some env =>
              cases henv : env.error with
              | some msg =>
                right
                exact ⟨s, c, rfl,
                  by simp [RefreshSession, doRequest, saveResponseCookies, hrt, hst, henv]⟩
              | none =>
                cases hp : parse env.data.expiresAt with
                | none =>
                  right
                  exact ⟨s, c, rfl,
                    by simp [RefreshSession, doRequest, saveResponseCookies, hrt, hst, henv, hp]⟩
                | some t0 =>
                  exfalso
                  simp [RefreshSession, doRequest, saveResponseCookies, hrt, hst, henv, hp]
                    at hfail

/-- **C8, counterexample to the claim as stated.** A 2xx response carrying
marble cookie "c2" whose envelope has a non-nil error: the refresh fails,
yet the session is not exactly as it was — its marble cookie is now "c2". -/
theorem C8_counterexample :
    (RefreshSession (fun _ => none)
      (some { accessToken := "a", refreshToken := "r", expiresAt := 0,
              tokenType := "Bearer", marbleCookie := "c1", deviceHash := "d" })
      (ExchangeResult.response 200 (some "c2")
        (some { error := some "boom",
                data := { tokenType := "", accessToken := "",
                          refreshToken := "", expiresAt := "" } }))).ok = false
    ∧ (RefreshSession (fun _ => none)
        (some { accessToken := "a", refreshToken := "r", expiresAt := 0,
                tokenType := "Bearer", marbleCookie := "c1", deviceHash := "d" })
        (ExchangeResult.response 200 (some "c2")
          (some { error := some "boom",
                  data := { tokenType := "", accessToken := "",
                            refreshToken := "", expiresAt := "" } }))).session ≠
      some { accessToken := "a", refreshToken := "r", expiresAt := 0,
             tokenType := "Bearer", marbleCookie := "c1", deviceHash := "d" } := by
  decide

/-- **C8, witness.** A transport failure on a concrete session: the
session afterwards is exactly the session before. -/
theorem C8_witness :
    (RefreshSession (fun _ => none)
      (some { accessToken := "a", refreshToken := "r", expiresAt := 0,
              tokenType := "Bearer", marbleCookie := "c1", deviceHash := "d" })
      ExchangeResult.transportError).session =
      some { accessToken := "a", refreshToken := "r", expiresAt := 0,
             tokenType := "Bearer", marbleCookie := "c1", deviceHash := "d" }
    ∨ ∃ s c,
        (some { accessToken := "a", refreshToken := "r", expiresAt := 0,
                tokenType := "Bearer", marbleCookie := "c1", deviceHash := "d" }
          : Option Session) = some s ∧
        (RefreshSession (fun _ => none)
          (some { accessToken := "a", refreshToken := "r", expiresAt := 0,
                  tokenType := "Bearer", marbleCookie := "c1", deviceHash := "d" })
          ExchangeResult.transportError).session =
          some { accessToken := s.accessToken, refreshToken := s.refreshToken,
                 expiresAt := s.expiresAt, tokenType := s.tokenType,
                 marbleCookie := c, deviceHash := s.deviceHash } :=
  C8_refresh_failure_atomicity (fun _ => none)
    (some { accessToken := "a", refreshToken := "r", expiresAt := 0,
            tokenType := "Bearer", marbleCookie := "c1", deviceHash := "d" })
    ExchangeResult.transportError (by decide)

/-- **C4.** OTP flow invariants: however the flow ends, the client's
device hash afterwards equals its value before; every verify call carries
exactly the pair carried by the request call of the same invocation; and
every call carries the request identifier and device hash generated
before the first call. -/
theorem C4_otp_flow_invariants (client : ClientState) (env : OTPEnv) :
    (runOTPLogin client env).client.deviceHash = client.deviceHash
    ∧ (∀ c ∈ (runOTPLogin client env).verifyCalls, c ∈ (runOTPLogin client env).requestCalls)
    ∧ (∀ c ∈ (runOTPLogin client env).requestCalls,
        c = { deviceHash := env.freshDeviceHash, requestID := env.freshRequestID }) := by
  unfold runOTPLogin
  repeat' split
  all_goals (repeat' (first | split | simp_all))

/-- **C4, witness.** A concrete successful flow: the ambient device hash
is restored to "d0" and both calls carry the generated pair. -/
theorem C4_witness :
    (runOTPLogin { deviceHash := "d0" }
      { phoneFlag := "p", otpFlag := "o", phoneRead := Except.ok "p",
        otpRead := Except.ok "o", freshRequestID := "rid", freshDeviceHash := "dh",
        requestOutcome := Except.ok (), verifyOutcome := Except.ok "rt",
        postOutcome := Except.ok () }).client.deviceHash = "d0"
    ∧ (∀ c ∈ (runOTPLogin { deviceHash := "d0" }
          { phoneFlag := "p", otpFlag := "o", phoneRead := Except.ok "p",
            otpRead := Except.ok "o", freshRequestID := "rid", freshDeviceHash := "dh",
            requestOutcome := Except.ok (), verifyOutcome := Except.ok "rt",
            postOutcome := Except.ok () }).verifyCalls,
        c ∈ (runOTPLogin { deviceHash := "d0" }
          { phoneFlag := "p", otpFlag := "o", phoneRead := Except.ok "p",
            otpRead := Except.ok "o", freshRequestID := "rid", freshDeviceHash := "dh",
            requestOutcome := Except.ok (), verifyOutcome := Except.ok "rt",
            postOutcome := Except.ok () }).requestCalls)
    ∧ (∀ c ∈ (runOTPLogin { deviceHash := "d0" }
          { phoneFlag := "p", otpFlag := "o", phoneRead := Except.ok "p",
            otpRead := Except.ok "o", freshRequestID := "rid", freshDeviceHash := "dh",
            requestOutcome := Except.ok (), verifyOutcome := Except.ok "rt",
            postOutcome := Except.ok () }).requestCalls,
        c = { deviceHash := "dh", requestID := "rid" }) :=
  C4_otp_flow_invariants { deviceHash := "d0" }
    { phoneFlag := "p", otpFlag := "o", phoneRead := Except.ok "p",
      otpRead := Except.ok "o", freshRequestID := "rid", freshDeviceHash := "dh",
      requestOutcome := Except.ok (), verifyOutcome := Except.ok "rt",
      postOutcome := Except.ok () }

/-- Byte conversion distributes over string concatenation. -/
theorem utf8Bytes_append (s t : String) :
    utf8Bytes (s ++ t) = utf8Bytes s ++ utf8Bytes t := by
  unfold utf8Bytes
  rw [String.data_append, List.flatMap_append]

/-- A size-class capacity is at least 16 from 9 bytes up, and never below
the length. -/
theorem roundupsize_bounds (n : Nat) (h : 9 ≤ n) :
    16 ≤ roundupsize n ∧ n ≤ roundupsize n := by
  unfold roundupsize
  split_ifs <;> omega

/-- The fallback branch always returns a string: the fallback is at least
10 bytes ("fintrack-" and "-" alone), so the conversion's capacity is at
least 16 and every slice, `[10:16]` included, is in range. -/
theorem fallbackDeviceHash_isSome (hostname user username : String) :
    (fallbackDeviceHash hostname user username).isSome = true := by
  have h9 : (utf8Bytes "fintrack-").length = 9 := by decide
  have hm : (utf8Bytes "-").length = 1 := by decide
  simp only [fallbackDeviceHash]
  set fb := utf8Bytes ("fintrack-" ++ hostname ++ "-" ++
    (if user ≠ "" then user else username)) with hfb
  have hlen : 10 ≤ fb.length := by
    rw [hfb, utf8Bytes_append, utf8Bytes_append, utf8Bytes_append]
    simp only [List.length_append, h9, hm]
    omega
  obtain ⟨hc16, hclen⟩ := roundupsize_bounds fb.length (by omega)
  have c4 : 4 ≤ roundupsize fb.length := by omega
  have c6 : 6 ≤ roundupsize fb.length := by omega
  have c8 : 8 ≤ roundupsize fb.length := by omega
  have c10 : 10 ≤ roundupsize fb.length := by omega
  simp [goSlice, c4, c6, c8, c10, hc16]

/-- A 16-byte buffer of length and capacity 16 formats successfully. -/
theorem formatUUIDBuffer_isSome (b : List Nat) (hb : b.length = 16) :
    (formatUUIDBuffer b).isSome = true := by
  simp [formatUUIDBuffer, goSlice, hb]

/-- The successful-random branch always returns a string: the buffer has
length 16 and every slice is within its capacity. -/
theorem randomDeviceHash_isSome (randBytes : Fin 16 → Nat) :
    (randomDeviceHash randBytes).isSome = true := by
  simp only [randomDeviceHash]
  exact formatUUIDBuffer_isSome _ (by simp)

/-- **C10.** `GenerateDeviceHash` is total: for every outcome of the
random source and every hostname/USER/USERNAME environment (empty strings
included), it returns a string.  In particular the fallback path's slice
expressions are bounds-checked against the `[]byte(fallback)` conversion's
capacity — its length rounded up to an allocation size class, hence at
least 16 for the at-least-10-byte fallback — so `[10:16]` stays in range,
reading runtime-zeroed padding when the fallback is shorter than 16
bytes. -/
theorem C10_generate_device_hash (randFails : Bool) (randBytes : Fin 16 → Nat)
    (hostname user username : String) :
    (GenerateDeviceHash randFails randBytes hostname user username).isSome = true := by
  cases randFails with
  | true =>
    show (fallbackDeviceHash hostname user username).isSome = true
    exact fallbackDeviceHash_isSome hostname user username
  | false =>
    show (randomDeviceHash randBytes).isSome = true
    exact randomDeviceHash_isSome randBytes
